import Mathlib

/-!
# dockerProxy: the caching handler and the certificate provider

A shallow embedding of `handler.go` (`Handler.ServeHTTP`) and of the certificate
reload loop of `main.go` (`loadCertificates`, `getCertificate`), followed by the
properties established about them.

Conventions of the embedding.

* Go strings and `[]byte` payloads are Lean strings; the handler only concatenates,
  compares and stores them.
* `http.Header` is an association list of canonical keys; `Get` answers the first value
  stored under a key and the empty string when there is none, `Set` replaces every value.
* The response cache (`go-cache`) is a finite map from keys to payloads. Expiry is not
  represented: a cache state is the set of entries that are live at that moment, an
  expired entry being an absent one.
* The `http.ResponseWriter` is `httptest.ResponseRecorder`, the writer of
  `handler_test.go`: it keeps the status code, the header map and the bytes written, it
  sniffs a `Content-Type` on an implicit `WriteHeader(200)`, it panics on a status code
  outside 100..999, and it cannot be hijacked.
* A response body is a stream: reading it to the end leaves it drained.
* A panic is recorded in the outcome of the call, next to the state reached before it.
* Four functions of the standard library are parameters, gathered in `Stdlib`:
  `net/url.Parse`, `http.DetectContentType`, `net.SplitHostPort` and
  `textproto.CanonicalMIMEHeaderKey`. The transport (`http.RoundTripper`) is a parameter
  of each call.
* `httputil.ReverseProxy.ServeHTTP` is followed step by step: `Director` on a clone of
  the request, the refusal of an upgrade to a protocol whose name is not printable, the
  hop-by-hop header hygiene, `X-Forwarded-For` and `User-Agent`, one `RoundTrip`, the
  branch of a 101 answer, `ModifyResponse`, then headers, status and body copied to the
  writer, with the default error handler (502). Response trailers, flushing and request
  bodies are not represented.
* Logging has no effect on any observed value and is left out; locks are left out
  because every step is taken atomically.
-/

namespace DockerProxy

/-! ## Strings and headers -/

/-- Payload bytes (Go `[]byte`), carried as a string. -/
abbrev Bytes := String

/-- Whether `sub` occurs as a contiguous block of `s`. -/
def hasInfix (sub : List Char) : List Char → Bool
  | [] => sub.isEmpty
  | c :: cs => sub.isPrefixOf (c :: cs) || hasInfix sub cs

/-- Go `strings.Contains(s, substr)`. -/
def strings_Contains (s substr : String) : Bool :=
  hasInfix substr.data s.data

/-- Go `strings.Split(s, ",")` on the characters of `s`. -/
def splitComma : List Char → List (List Char)
  | [] => [[]]
  | c :: cs =>
    match splitComma cs with
    | [] => [[]]
    | w :: ws => if c = ',' then [] :: w :: ws else (c :: w) :: ws

/-- Removal of the characters that satisfy `p` at both ends. -/
def trimBoth (p : Char → Bool) (s : List Char) : List Char :=
  ((s.dropWhile p).reverse.dropWhile p).reverse

/-- Optional white space of a header value: space and horizontal tab. -/
def isOWS (c : Char) : Bool := c.toNat = 32 || c.toNat = 9

/-- The white space trimmed by `textproto.TrimString`: space, tab, line feed, carriage
return. -/
def isASCIISpace (c : Char) : Bool :=
  c.toNat = 32 || c.toNat = 9 || c.toNat = 10 || c.toNat = 13

/-- The code of a character with ASCII upper case letters lowered. -/
def lowerASCII (c : Char) : Nat :=
  if 65 ≤ c.toNat ∧ c.toNat ≤ 90 then c.toNat + 32 else c.toNat

/-- Go `httpguts.tokenEqual`: equality of two tokens up to ASCII case; a token with a
character outside ASCII equals nothing. -/
def tokenEqual (t1 t2 : List Char) : Bool :=
  t1.all (fun c => c.toNat < 128) && t1.map lowerASCII == t2.map lowerASCII

/-- Go `httpguts.HeaderValuesContainsToken`: whether one of the comma-separated elements
of one of the values is `token`, up to white space and case. -/
def HeaderValuesContainsToken (values : List String) (token : String) : Bool :=
  values.any (fun v =>
    (splitComma v.data).any (fun part => tokenEqual (trimBoth isOWS part) token.data))

/-- Go `ascii.IsPrint`: every byte lies between space and tilde. -/
def ascii_IsPrint (s : String) : Bool :=
  s.data.all (fun c => 32 ≤ c.toNat && c.toNat ≤ 126)

/-- Go `http.Header`, as an association list of canonical key and value. -/
structure Header where
  entries : List (String × String)
deriving DecidableEq, Repr

/-- Go `Header.Get`: the first value stored under `key`, or the empty string. -/
def Header.Get (h : Header) (key : String) : String :=
  match h.entries.lookup key with
  | some v => v
  | none => ""

/-- Go `h[key]`: the values stored under `key`, in order. -/
def Header.Values (h : Header) (key : String) : List String :=
  (h.entries.filter (fun kv => kv.1 == key)).map (fun kv => kv.2)

/-- Go `_, ok := h[key]`: whether `key` is present. -/
def Header.has (h : Header) (key : String) : Bool :=
  h.entries.any (fun kv => kv.1 == key)

/-- Go `Header.Set`: `key` is left with the single value `value`. -/
def Header.Set (h : Header) (key value : String) : Header :=
  { entries := (key, value) :: h.entries.filter (fun kv => kv.1 != key) }

/-- Go `Header.Del` on a canonical key: every value of `key` is removed. -/
def Header.Del (h : Header) (key : String) : Header :=
  { entries := h.entries.filter (fun kv => kv.1 != key) }

/-- Go `copyHeader(dst, src)` of `httputil`: every value of `src` is added to `dst`. -/
def copyHeader (dst src : Header) : Header :=
  { entries := dst.entries ++ src.entries }

/-! ## Requests, responses, the writer -/

/-- The fields of Go `url.URL` that the handler reads or writes. -/
structure URL where
  Scheme : String
  Host : String
  Path : String
deriving DecidableEq, Repr

/-- The fields of Go `http.Request` that the handler and the proxy read or write. `Host`
is the field `r.Host`; `Header` is the header map `r.Header`, a separate value;
`underServer` tells whether the context of the request carries `http.ServerContextKey`,
which is so under an `http.Server` and not so for a request of `httptest.NewRequest`. -/
structure Request where
  Method : String
  URL : URL
  Host : String
  Header : Header
  RemoteAddr : String
  underServer : Bool
deriving DecidableEq, Repr

/-- A response body stream: the bytes it still delivers and, when reading ends in a
failure, the error reported after them. -/
structure Body where
  data : Bytes
  readErr : Option String
deriving DecidableEq, Repr

/-- Go `io.ReadAll`: the bytes read until the end of the stream or a failure, the
failure if there was one, and the stream as the read leaves it, drained. -/
def io_ReadAll (b : Body) : Bytes × Option String × Body :=
  (b.data, b.readErr, { data := "", readErr := b.readErr })

/-- The fields of Go `http.Response` that the proxy reads or writes. -/
structure Response where
  StatusCode : Nat
  Header : Header
  Body : Body
deriving DecidableEq, Repr

/-- Go `http.RoundTripper`: the answer of the transport to one outbound request, either a
response or an error. -/
abbrev RoundTripper := Request → Except String Response

/-- The functions of the Go standard library that are parameters of the embedding. -/
structure Stdlib where
  /-- Go `net/url.Parse`. -/
  url_Parse : String → Except String URL
  /-- Go `http.DetectContentType`. -/
  DetectContentType : Bytes → String
  /-- Go `net.SplitHostPort`, its host result. -/
  SplitHostPort : String → Except String String
  /-- Go `textproto.CanonicalMIMEHeaderKey`. -/
  CanonicalMIMEHeaderKey : String → String

/-- Go `httptest.ResponseRecorder`: what is written to the client. -/
structure ResponseRecorder where
  Code : Nat
  HeaderMap : Header
  Body : Bytes
  wroteHeader : Bool
deriving DecidableEq, Repr

/-- Go `httptest.NewRecorder`: a fresh writer, default status 200, nothing written. -/
def NewRecorder : ResponseRecorder :=
  { Code := 200, HeaderMap := ⟨[]⟩, Body := "", wroteHeader := false }

/-- The effect of `WriteHeader(code)` once the code is accepted: the status code is
fixed, unless a header was written before. -/
def ResponseRecorder.commit (rw : ResponseRecorder) (code : Nat) : ResponseRecorder :=
  if rw.wroteHeader then rw else { rw with Code := code, wroteHeader := true }

/-- Go `ResponseRecorder.WriteHeader`: nothing when a header was written before; a panic
(`checkWriteHeaderCode`) when the code is below 100 or above 999; otherwise the status
code is fixed. -/
def ResponseRecorder.WriteHeader (rw : ResponseRecorder) (code : Nat) :
    Except String ResponseRecorder :=
  if rw.wroteHeader then .ok rw
  else if code < 100 ∨ 999 < code then .error "invalid WriteHeader code"
  else .ok (rw.commit code)

/-- Go `ResponseRecorder.Write`: when no header was written, a `Content-Type` is sniffed
from the bytes unless the header map holds one or holds a `Transfer-Encoding`, and the
status is fixed to 200; then the bytes are appended to the body. -/
def ResponseRecorder.Write (lib : Stdlib) (rw : ResponseRecorder) (b : Bytes) :
    ResponseRecorder :=
  let rw1 :=
    if rw.wroteHeader then rw
    else
      let m :=
        if rw.HeaderMap.has "Content-Type" || rw.HeaderMap.Get "Transfer-Encoding" != ""
        then rw.HeaderMap
        else rw.HeaderMap.Set "Content-Type" (lib.DetectContentType b)
      ({ rw with HeaderMap := m }).commit 200
  { rw1 with Body := rw1.Body ++ b }

/-- Go `http.Error`: plain-text headers, the status code, the message and a newline. -/
def http_Error (lib : Stdlib) (w : ResponseRecorder) (error : String) (code : Nat) :
    Except String ResponseRecorder :=
  let h1 := w.HeaderMap.Set "Content-Type" "text/plain; charset=utf-8"
  let h2 := h1.Set "X-Content-Type-Options" "nosniff"
  match ({ w with HeaderMap := h2 }).WriteHeader code with
  | .error msg => .error msg
  | .ok w1 => .ok (w1.Write lib (error ++ "\n"))

/-! ## The response cache -/

/-- The manifest cache (`*cache.Cache`): live entries, most recent first. -/
structure Cache where
  items : List (String × Bytes)
deriving DecidableEq, Repr

/-- Go `cache.Get(k)`: the payload stored under `k`, if any. -/
def Cache.Get (c : Cache) (k : String) : Option Bytes :=
  c.items.lookup k

/-- Go `cache.Set(k, x, cache.DefaultExpiration)`: `k` now maps to `x`, replacing an
earlier entry. -/
def Cache.Set (c : Cache) (k : String) (x : Bytes) : Cache :=
  { items := (k, x) :: c.items.filter (fun kv => kv.1 != k) }

/-- Go `cache.New`: the empty cache. -/
def Cache.New : Cache := { items := [] }

/-! ## The reverse proxy (`net/http/httputil`) -/

/-- What one call of the handler leaves behind: the writer, the cache, the outbound
requests handed to `RoundTrip`, in order, and the panic that ended the call, if any. -/
structure Outcome where
  w : ResponseRecorder
  cache : Cache
  sent : List Request
  panic : Option String
deriving DecidableEq, Repr

/-- Go `httputil.ReverseProxy` with the three fields the handler sets. `ModifyResponse`
is a closure over the cache, so it takes and returns the cache. -/
structure ReverseProxy where
  Director : Request → Request
  Transport : RoundTripper
  ModifyResponse : Response → Cache → Except String (Response × Cache)

/-- Go `upgradeType`: the `Upgrade` value when `Connection` lists the token `Upgrade`,
the empty string otherwise. -/
def upgradeType (h : Header) : String :=
  if HeaderValuesContainsToken (h.Values "Connection") "Upgrade" then h.Get "Upgrade"
  else ""

/-- The hop-by-hop headers of `httputil` (`hopHeaders`). -/
def hopHeaders : List String :=
  ["Connection", "Proxy-Connection", "Keep-Alive", "Proxy-Authenticate",
    "Proxy-Authorization", "Te", "Trailer", "Transfer-Encoding", "Upgrade"]

/-- Go `removeHopByHopHeaders`: the headers named in `Connection` are deleted, then the
hop-by-hop headers. -/
def removeHopByHopHeaders (lib : Stdlib) (h : Header) : Header :=
  let named := (h.Values "Connection").flatMap (fun f =>
    (splitComma f.data).map (fun sf => String.mk (trimBoth isASCIISpace sf)))
  let h1 := named.foldl
    (fun acc sf => if sf = "" then acc else acc.Del (lib.CanonicalMIMEHeaderKey sf)) h
  hopHeaders.foldl (fun acc f => acc.Del f) h1

/-- The header of the outbound request as `ReverseProxy.ServeHTTP` leaves it between
`Director` and `RoundTrip`: hop-by-hop headers removed, `Te: trailers` and the upgrade
headers put back, the client address appended to `X-Forwarded-For`, and an empty
`User-Agent` when there is none. `req` is the inbound request, `h` the header after
`Director`. -/
def outboundHeader (lib : Stdlib) (req : Request) (h : Header) : Header :=
  let reqUpType := upgradeType h
  let h1 := removeHopByHopHeaders lib h
  let h2 :=
    if HeaderValuesContainsToken (req.Header.Values "Te") "trailers" then
      h1.Set "Te" "trailers"
    else h1
  let h3 :=
    if reqUpType != "" then (h2.Set "Connection" "Upgrade").Set "Upgrade" reqUpType
    else h2
  let h4 :=
    match lib.SplitHostPort req.RemoteAddr with
    | .ok clientIP =>
      h3.Set "X-Forwarded-For"
        (String.intercalate ", " (h3.Values "X-Forwarded-For" ++ [clientIP]))
    | .error _ => h3
  if h4.has "User-Agent" then h4 else h4.Set "User-Agent" ""

/-- The request that `ReverseProxy.ServeHTTP` hands to the transport: a clone of the
inbound request passed through `Director`, with the outbound header. -/
def ReverseProxy.outreq (lib : Stdlib) (p : ReverseProxy) (req : Request) : Request :=
  { p.Director req with Header := outboundHeader lib req (p.Director req).Header }

/-- Go `ReverseProxy.ServeHTTP` on a recorder.

* An upgrade to a protocol whose name is not printable is answered by the error handler
  without a `RoundTrip`.
* A transport error is answered by the error handler, `WriteHeader(502)`.
* A 101 answer passes through `ModifyResponse` and then `handleUpgradeResponse`, every
  branch of which ends in the error handler on a writer that cannot be hijacked.
* Any other answer loses its hop-by-hop headers and passes through `ModifyResponse`, an
  error of which is answered by the error handler; then the headers are copied, the
  status code is written (a panic when it is outside 100..999) and the body is copied
  until its end or a read failure, which is logged, or is a panic under a server. -/
def ReverseProxy.ServeHTTP (lib : Stdlib) (p : ReverseProxy) (cache : Cache)
    (rw : ResponseRecorder) (req : Request) : Outcome :=
  if ascii_IsPrint (upgradeType (p.Director req).Header) then
    let outreq := p.outreq lib req
    match p.Transport outreq with
    | .error _ => { w := rw.commit 502, cache := cache, sent := [outreq], panic := none }
    | .ok res =>
      if res.StatusCode = 101 then
        match p.ModifyResponse res cache with
        | .error _ =>
          { w := rw.commit 502, cache := cache, sent := [outreq], panic := none }
        | .ok (_, cache1) =>
          { w := rw.commit 502, cache := cache1, sent := [outreq], panic := none }
      else
        let res0 := { res with Header := removeHopByHopHeaders lib res.Header }
        match p.ModifyResponse res0 cache with
        | .error _ =>
          { w := rw.commit 502, cache := cache, sent := [outreq], panic := none }
        | .ok (res1, cache1) =>
          let rw1 := { rw with HeaderMap := copyHeader rw.HeaderMap res1.Header }
          match rw1.WriteHeader res1.StatusCode with
          | .error msg =>
            { w := rw1, cache := cache1, sent := [outreq], panic := some msg }
          | .ok rw2 =>
            let copied := io_ReadAll res1.Body
            { w := rw2.Write lib copied.1, cache := cache1, sent := [outreq],
              panic :=
                match copied.2.1 with
                | some _ => if req.underServer then some "net/http: abort Handler" else none
                | none => none }
  else
    { w := rw.commit 502, cache := cache, sent := [], panic := none }

/-! ## The handler (`handler.go`) -/

/-- Go `Handler`: the shared cache and the transport (the logger is left out). -/
structure Handler where
  cache : Cache
  transport : RoundTripper

/-- The `cacheKey` of `Handler.ServeHTTP`:
`r.Host + r.URL.Path + r.Header.Get("Authorization")`. -/
def cacheKey (r : Request) : String :=
  r.Host ++ r.URL.Path ++ r.Header.Get "Authorization"

/-- The `Director` closure of `Handler.ServeHTTP`, applied to the outbound request. -/
def Director (targetUrl : URL) (r : Request) : Request :=
  let r1 := { r with URL := { r.URL with Host := targetUrl.Host } }
  let r2 := { r1 with URL := { r1.URL with Scheme := targetUrl.Scheme } }
  let r3 := { r2 with Header := r2.Header.Set "X-Forwarded-Host" (r2.Header.Get "Host") }
  { r3 with Host := targetUrl.Host }

/-- The `ModifyResponse` closure of `Handler.ServeHTTP`; `r` is the inbound request and
`key` its `cacheKey`. On a manifest path the body is read to its end, which drains it, a
read failure is returned, the body is replaced by a fresh stream over the bytes read,
and the bytes are stored in the cache. -/
def ModifyResponse (r : Request) (key : String) (resp : Response) (cache : Cache) :
    Except String (Response × Cache) :=
  if strings_Contains r.URL.Path "/manifests/" then
    let read := io_ReadAll resp.Body
    let manifestData := read.1
    let resp1 := { resp with Body := read.2.2 }
    match read.2.1 with
    | some err => .error err
    | none =>
      let resp2 := { resp1 with Body := { data := manifestData, readErr := none } }
      .ok (resp2, cache.Set key manifestData)
  else
    .ok (resp, cache)

/-- The outcome of a call that ends with a write that may panic. -/
def Outcome.written (res : Except String ResponseRecorder) (w : ResponseRecorder)
    (cache : Cache) : Outcome :=
  match res with
  | .ok w1 => { w := w1, cache := cache, sent := [], panic := none }
  | .error msg => { w := w, cache := cache, sent := [], panic := some msg }

/-- Go `Handler.ServeHTTP`. -/
def Handler.ServeHTTP (lib : Stdlib) (h : Handler) (w : ResponseRecorder) (r : Request) :
    Outcome :=
  let key := cacheKey r
  let cached :=
    if strings_Contains r.URL.Path "/manifests/" then h.cache.Get key else none
  match cached with
  | some manifestData =>
    { w := w.Write lib manifestData, cache := h.cache, sent := [], panic := none }
  | none =>
    if r.Host = "" then
      Outcome.written (http_Error lib w "Missing host header" 400) w h.cache
    else
      match lib.url_Parse ("https://" ++ r.Host ++ "/v2") with
      | .error err =>
        Outcome.written (http_Error lib w ("Failed to parse target URL: " ++ err) 500)
          w h.cache
      | .ok targetUrl =>
        let proxy : ReverseProxy :=
          { Director := Director targetUrl,
            Transport := h.transport,
            ModifyResponse := ModifyResponse r key }
        proxy.ServeHTTP lib h.cache w r

/-- The shape of the requests that `net/http` hands to a handler, as far as the cache
key is concerned: a path that contains the manifest segment begins with a slash, and the
Host does not begin with a slash. (`net/http` delivers a path that is empty, `*` or
begins with a slash, and a Host without any slash.) -/
def deliverable (r : Request) : Prop :=
  (strings_Contains r.URL.Path "/manifests/" = true → r.URL.Path.data.head? = some '/') ∧
  r.Host.data.head? ≠ some '/'

instance (r : Request) : Decidable (deliverable r) := by
  unfold deliverable
  infer_instance

/-- The cache states reached from the empty cache by handling deliverable requests, with
any transport and any writer, and by the expiry of entries. -/
inductive Reachable (lib : Stdlib) : Cache → Prop
  | empty : Reachable lib Cache.New
  | step (c : Cache) (tr : RoundTripper) (w : ResponseRecorder) (r : Request) :
      Reachable lib c → deliverable r →
      Reachable lib (Handler.ServeHTTP lib ⟨c, tr⟩ w r).cache
  | expire (c : Cache) (live : String × Bytes → Bool) :
      Reachable lib c → Reachable lib { items := c.items.filter live }

/-! ## The test fixtures (`handler_test.go`) -/

/-- The `roundTripFunc` of the mock transport in `TestHandler_ServeHTTP`. -/
def roundTripFunc : RoundTripper := fun req =>
  if req.URL.Path = "/manifests/test" then
    .ok { StatusCode := 200, Header := ⟨[]⟩, Body := ⟨"test manifest data", none⟩ }
  else if req.URL.Path = "/manifests/denied" then
    .ok { StatusCode := 403, Header := ⟨[]⟩, Body := ⟨"Access denied", none⟩ }
  else
    .ok { StatusCode := 404, Header := ⟨[]⟩, Body := ⟨"Not Found", none⟩ }

/-- The requests built in `TestHandler_ServeHTTP`:
`httptest.NewRequest(GET, "https://" + host + path)`, which gives the remote address
`192.0.2.1:1234`, then `req.Host` and the `Authorization` header are set. -/
def testRequest (host path authorization : String) : Request :=
  { Method := "GET",
    URL := { Scheme := "https", Host := host, Path := path },
    Host := host,
    Header := (Header.mk []).Set "Authorization" authorization,
    RemoteAddr := "192.0.2.1:1234",
    underServer := false }

/-- A stand-in for `net/url.Parse` on the targets the handler builds, used to run the
handler on concrete requests. On `"https://" ++ host ++ "/v2"` where `host` is made of
letters, digits, dots and hyphens it answers what `net/url` answers: scheme `https`,
that host, path `/v2`. Every other input is reported as an error. -/
def url_Parse_plain (rawURL : String) : Except String URL :=
  let rest := rawURL.data.drop 8
  let host := rest.takeWhile (fun c => c.isAlphanum || c == '.' || c == '-')
  if rawURL.data.take 8 = "https://".data ∧ rest.drop host.length = "/v2".data then
    .ok { Scheme := "https", Host := String.mk host, Path := "/v2" }
  else
    .error "unsupported target"

/-- A stand-in for `net.SplitHostPort` on addresses `host:port` whose host is made of
letters, digits, dots and hyphens and whose port is made of digits, where it answers the
host as `net` does. Every other input is reported as an error. -/
def SplitHostPort_plain (hostport : String) : Except String String :=
  let host := hostport.data.takeWhile (fun c => c.isAlphanum || c == '.' || c == '-')
  let rest := hostport.data.drop host.length
  if rest.head? = some ':' ∧ rest.tail ≠ [] ∧ rest.tail.all Char.isDigit then
    .ok (String.mk host)
  else
    .error "unsupported address"

/-- The standard library used to run the handler on concrete requests: the two stand-ins
above; a content sniffer that answers `text/plain; charset=utf-8`, as
`http.DetectContentType` does on plain text; and a key canonicalisation that leaves its
argument as it is, as `textproto` does on a key in canonical form. -/
def plain : Stdlib :=
  { url_Parse := url_Parse_plain,
    DetectContentType := fun _ => "text/plain; charset=utf-8",
    SplitHostPort := SplitHostPort_plain,
    CanonicalMIMEHeaderKey := fun s => s }

/-! ## The certificate provider (`main.go`) -/

/-- Go `tls.Certificate`: the key pair read from `cert.pem` and `key.pem`. -/
structure Certificate where
  certPEM : Bytes
  keyPEM : Bytes
deriving DecidableEq, Repr

/-- The package variable `certificates` of `main.go`, a pointer that is nil until the
first successful load. -/
structure CertState where
  certificates : Option Certificate
deriving DecidableEq, Repr

/-- The state at program start: `certificates` is nil. -/
def CertState.init : CertState := { certificates := none }

/-- One turn of the loop of `loadCertificates`; `attempt` is what
`tls.LoadX509KeyPair("cert.pem", "key.pem")` answered in that turn. -/
def loadCertificates_turn (st : CertState) (attempt : Except String Certificate) :
    CertState :=
  match attempt with
  | .error _ => st
  | .ok cert => { st with certificates := some cert }

/-- Go `loadCertificates`, run for as many turns as there are answers in `attempts`. -/
def loadCertificates (attempts : List (Except String Certificate)) (st : CertState) :
    CertState :=
  attempts.foldl loadCertificates_turn st

/-- Go `getCertificate`: the current material and a nil error. -/
def getCertificate (st : CertState) : Option Certificate × Option String :=
  (st.certificates, none)

/-- The specification side of the certificate provider: the key pair of the most recent
successful attempt of a sequence of attempts, or nothing when none succeeded. -/
def lastSuccessful : List (Except String Certificate) → Option Certificate
  | [] => none
  | a :: rest =>
    match lastSuccessful rest with
    | some cert => some cert
    | none =>
      match a with
      | .ok cert => some cert
      | .error _ => none

/-- The request handed to the transport by the proxy that the handler builds for the
target `targetUrl`. -/
def outbound (lib : Stdlib) (targetUrl : URL) (r : Request) : Request :=
  { Director targetUrl r with
    Header := outboundHeader lib r (Director targetUrl r).Header }

/-! ## Lemmas on strings, headers, the cache and the writer -/

theorem append_left_cancel_str {a b c : String} (h : a ++ b = a ++ c) : b = c := by
  have h1 := congrArg String.data h
  simp only [String.data_append] at h1
  exact String.ext (List.append_cancel_left h1)

theorem append_right_cancel_str {a b c : String} (h : a ++ c = b ++ c) : a = b := by
  have h1 := congrArg String.data h
  simp only [String.data_append] at h1
  exact String.ext (List.append_cancel_right h1)

theorem lookup_filter_ne (k k1 : String) (l : List (String × Bytes)) (hne : k1 ≠ k) :
    (l.filter (fun kv => kv.1 != k)).lookup k1 = l.lookup k1 := by
  induction l with
  | nil => rfl
  | cons kv l ih =>
    obtain ⟨a, b⟩ := kv
    by_cases hak : a = k
    · subst hak
      have hk : (k1 == a) = false := by simpa using hne
      simp [List.filter_cons, List.lookup_cons, hk, ih]
    · have hf : (a != k) = true := by simpa using hak
      simp only [List.filter_cons, hf, if_true, List.lookup_cons, ih]

theorem filter_key_filter_ne (k k1 : String) (l : List (String × String)) (hne : k1 ≠ k) :
    (l.filter (fun kv => kv.1 != k)).filter (fun kv => kv.1 == k1) =
      l.filter (fun kv => kv.1 == k1) := by
  induction l with
  | nil => rfl
  | cons kv l ih =>
    obtain ⟨a, b⟩ := kv
    by_cases hak : a = k
    · subst hak
      have hk : (a == k1) = false := by simpa using Ne.symm hne
      simp [List.filter_cons, hk, ih]
    · have hf : (a != k) = true := by simpa using hak
      simp only [List.filter_cons, hf, if_true, ih]

theorem lookup_none_of_forall_ne (k : String) (l : List (String × Bytes))
    (h : ∀ kv ∈ l, kv.1 ≠ k) : l.lookup k = none := by
  induction l with
  | nil => rfl
  | cons kv l ih =>
    obtain ⟨a, b⟩ := kv
    have hk : (k == a) = false := by
      have := h (a, b) (List.mem_cons_self _ _)
      simpa using Ne.symm this
    simp only [List.lookup_cons, hk]
    exact ih (fun kv hkv => h kv (List.mem_cons_of_mem _ hkv))

theorem head_append_of_ne_empty (a b : String) (ha : a ≠ "") :
    (a ++ b).data.head? = a.data.head? := by
  have hd : a.data ≠ [] := fun hnil => ha (String.ext hnil)
  rw [String.data_append]
  cases hdata : a.data with
  | nil => exact absurd hdata hd
  | cons c cs => rfl

theorem Header_Values_Set_ne (h : Header) (k k1 v : String) (hne : k1 ≠ k) :
    (h.Set k v).Values k1 = h.Values k1 := by
  have hk : (k == k1) = false := by simpa using Ne.symm hne
  simp [Header.Values, Header.Set, List.filter_cons, hk, filter_key_filter_ne k k1 _ hne]

theorem Header_Get_Set_ne (h : Header) (k k1 v : String) (hne : k1 ≠ k) :
    (h.Set k v).Get k1 = h.Get k1 := by
  have hk : (k1 == k) = false := by simpa using hne
  simp [Header.Get, Header.Set, List.lookup_cons, hk, lookup_filter_ne k k1 _ hne]

theorem Cache.Get_Set_self (c : Cache) (k : String) (x : Bytes) :
    (c.Set k x).Get k = some x := by
  simp [Cache.Get, Cache.Set, List.lookup_cons]

theorem Cache.Get_Set_ne (c : Cache) (k k1 : String) (x : Bytes) (hne : k1 ≠ k) :
    (c.Set k x).Get k1 = c.Get k1 := by
  have hk : (k1 == k) = false := by simpa using hne
  simp [Cache.Get, Cache.Set, List.lookup_cons, hk, lookup_filter_ne k k1 c.items hne]

theorem NewRecorder_Write (lib : Stdlib) (d : Bytes) :
    NewRecorder.Write lib d =
      { Code := 200, HeaderMap := ⟨[("Content-Type", lib.DetectContentType d)]⟩,
        Body := d, wroteHeader := true } := by
  simp [NewRecorder, ResponseRecorder.Write, ResponseRecorder.commit, Header.has,
    Header.Get, Header.Set]

theorem NewRecorder_commit (code : Nat) :
    NewRecorder.commit code =
      { Code := code, HeaderMap := ⟨[]⟩, Body := "", wroteHeader := true } := by
  simp [NewRecorder, ResponseRecorder.commit]

theorem NewRecorder_http_Error_400 (lib : Stdlib) (msg : String) :
    http_Error lib NewRecorder msg 400 =
      .ok { Code := 400,
            HeaderMap := ((Header.mk []).Set "Content-Type" "text/plain; charset=utf-8").Set
              "X-Content-Type-Options" "nosniff",
            Body := msg ++ "\n", wroteHeader := true } := by
  simp [http_Error, NewRecorder, ResponseRecorder.WriteHeader, ResponseRecorder.commit,
    ResponseRecorder.Write]

/-- The `Director` closure leaves the upgrade type of the request as it is. -/
theorem upgradeType_Director (u : URL) (r : Request) :
    upgradeType (Director u r).Header = upgradeType r.Header := by
  have hv : (Director u r).Header.Values "Connection" = r.Header.Values "Connection" :=
    Header_Values_Set_ne r.Header "X-Forwarded-Host" "Connection" _ (by decide)
  have hg : (Director u r).Header.Get "Upgrade" = r.Header.Get "Upgrade" :=
    Header_Get_Set_ne r.Header "X-Forwarded-Host" "Upgrade" _ (by decide)
  unfold upgradeType
  rw [hv, hg]

/-! ## Lemmas on the paths through `Handler.ServeHTTP` -/

/-- The cache-hit path: the cached bytes are written, nothing else happens. -/
theorem ServeHTTP_hit (lib : Stdlib) (h : Handler)
    (w : ResponseRecorder) (r : Request) (d : Bytes)
    (hpath : strings_Contains r.URL.Path "/manifests/" = true)
    (hget : h.cache.Get (cacheKey r) = some d) :
    Handler.ServeHTTP lib h w r =
      { w := w.Write lib d, cache := h.cache, sent := [], panic := none } := by
  simp [Handler.ServeHTTP, hpath, hget]

/-- The path of a request that is not answered from the cache and has no Host. -/
theorem ServeHTTP_no_host (lib : Stdlib) (h : Handler)
    (w : ResponseRecorder) (r : Request)
    (hmiss : strings_Contains r.URL.Path "/manifests/" = false ∨
      h.cache.Get (cacheKey r) = none)
    (hhost : r.Host = "") :
    Handler.ServeHTTP lib h w r =
      Outcome.written (http_Error lib w "Missing host header" 400) w h.cache := by
  rcases hmiss with hm | hm <;> simp [Handler.ServeHTTP, hm, hhost]

/-- The path of a request that is not answered from the cache, has a Host, and whose
target does not parse. -/
theorem ServeHTTP_bad_target (lib : Stdlib) (h : Handler)
    (w : ResponseRecorder) (r : Request) (e : String)
    (hmiss : strings_Contains r.URL.Path "/manifests/" = false ∨
      h.cache.Get (cacheKey r) = none)
    (hhost : r.Host ≠ "")
    (hparse : lib.url_Parse ("https://" ++ r.Host ++ "/v2") = .error e) :
    Handler.ServeHTTP lib h w r =
      Outcome.written (http_Error lib w ("Failed to parse target URL: " ++ e) 500)
        w h.cache := by
  rcases hmiss with hm | hm <;> simp [Handler.ServeHTTP, hm, hhost, hparse]

/-- The forwarding path: no answer from the cache, a Host, a target that parses. -/
theorem ServeHTTP_forward (lib : Stdlib) (h : Handler)
    (w : ResponseRecorder) (r : Request) (u : URL)
    (hmiss : strings_Contains r.URL.Path "/manifests/" = false ∨
      h.cache.Get (cacheKey r) = none)
    (hhost : r.Host ≠ "")
    (hparse : lib.url_Parse ("https://" ++ r.Host ++ "/v2") = .ok u) :
    Handler.ServeHTTP lib h w r =
      ReverseProxy.ServeHTTP lib
        { Director := Director u, Transport := h.transport,
          ModifyResponse := ModifyResponse r (cacheKey r) } h.cache w r := by
  rcases hmiss with hm | hm <;> simp [Handler.ServeHTTP, hm, hhost, hparse]

/-- A request is answered from the cache or it is not. -/
theorem hit_or_miss (c : Cache) (r : Request) :
    (strings_Contains r.URL.Path "/manifests/" = true ∧ ∃ d, c.Get (cacheKey r) = some d) ∨
    (strings_Contains r.URL.Path "/manifests/" = false ∨ c.Get (cacheKey r) = none) := by
  by_cases hp : strings_Contains r.URL.Path "/manifests/" = true
  · cases hg : c.Get (cacheKey r) with
    | none => exact Or.inr (Or.inr rfl)
    | some d => exact Or.inl ⟨hp, d, rfl⟩
  · exact Or.inr (Or.inl (by simpa using hp))

/-- A write that may panic sends nothing and leaves the cache as it is. -/
theorem Outcome.written_sent_cache (res : Except String ResponseRecorder)
    (w : ResponseRecorder) (c : Cache) :
    (Outcome.written res w c).sent = [] ∧ (Outcome.written res w c).cache = c := by
  cases res <;> exact ⟨rfl, rfl⟩

/-- The proxy refuses an upgrade to a protocol whose name is not printable. -/
theorem proxy_refused (lib : Stdlib) (p : ReverseProxy) (c : Cache) (rw : ResponseRecorder)
    (r : Request) (hup : ascii_IsPrint (upgradeType (p.Director r).Header) = false) :
    p.ServeHTTP lib c rw r =
      { w := rw.commit 502, cache := c, sent := [], panic := none } := by
  simp [ReverseProxy.ServeHTTP, hup]

/-- A proxy that does not refuse the request hands exactly one request to the transport. -/
theorem proxy_sent (lib : Stdlib) (p : ReverseProxy) (c : Cache) (rw : ResponseRecorder)
    (r : Request) (hup : ascii_IsPrint (upgradeType (p.Director r).Header) = true) :
    (p.ServeHTTP lib c rw r).sent = [p.outreq lib r] := by
  cases ht : p.Transport (p.outreq lib r) with
  | error e => simp [ReverseProxy.ServeHTTP, hup, ht]
  | ok res =>
    by_cases h101 : res.StatusCode = 101
    · cases hm : p.ModifyResponse res c with
      | error e => simp [ReverseProxy.ServeHTTP, hup, ht, h101, hm]
      | ok v => simp [ReverseProxy.ServeHTTP, hup, ht, h101, hm]
    · cases hm : p.ModifyResponse
          { res with Header := removeHopByHopHeaders lib res.Header } c with
      | error e => simp [ReverseProxy.ServeHTTP, hup, ht, h101, hm]
      | ok v =>
        cases hw : ({ rw with HeaderMap := copyHeader rw.HeaderMap v.1.Header } :
            ResponseRecorder).WriteHeader v.1.StatusCode with
        | error e => simp [ReverseProxy.ServeHTTP, hup, ht, h101, hm, hw]
        | ok rw2 => simp [ReverseProxy.ServeHTTP, hup, ht, h101, hm, hw]

/-- The exchange of the proxy when the transport reports an error. -/
theorem proxy_transport_error (lib : Stdlib) (p : ReverseProxy) (c : Cache)
    (rw : ResponseRecorder) (r : Request) (e : String)
    (hup : ascii_IsPrint (upgradeType (p.Director r).Header) = true)
    (herr : p.Transport (p.outreq lib r) = .error e) :
    p.ServeHTTP lib c rw r =
      { w := rw.commit 502, cache := c, sent := [p.outreq lib r], panic := none } := by
  simp [ReverseProxy.ServeHTTP, hup, herr]

/-- A request reaches the transport only on the forwarding path, and then it is the
outbound request of the proxy. -/
theorem ServeHTTP_sent_inv (lib : Stdlib) (h : Handler)
    (w : ResponseRecorder) (r q : Request)
    (hq : q ∈ (Handler.ServeHTTP lib h w r).sent) :
    ∃ u, (strings_Contains r.URL.Path "/manifests/" = false ∨
        h.cache.Get (cacheKey r) = none) ∧ r.Host ≠ "" ∧
      lib.url_Parse ("https://" ++ r.Host ++ "/v2") = .ok u ∧
      ascii_IsPrint (upgradeType (Director u r).Header) = true ∧ q = outbound lib u r := by
  rcases hit_or_miss h.cache r with ⟨hp, d, hd⟩ | hmiss
  · rw [ServeHTTP_hit lib h w r d hp hd] at hq
    simp at hq
  · by_cases hhost : r.Host = ""
    · rw [ServeHTTP_no_host lib h w r hmiss hhost,
        (Outcome.written_sent_cache _ _ _).1] at hq
      simp at hq
    · cases hparse : lib.url_Parse ("https://" ++ r.Host ++ "/v2") with
      | error e =>
        rw [ServeHTTP_bad_target lib h w r e hmiss hhost hparse,
          (Outcome.written_sent_cache _ _ _).1] at hq
        simp at hq
      | ok u =>
        rw [ServeHTTP_forward lib h w r u hmiss hhost hparse] at hq
        cases hup : ascii_IsPrint (upgradeType (Director u r).Header) with
        | false =>
          rw [proxy_refused lib _ h.cache w r hup] at hq
          simp at hq
        | true =>
          rw [proxy_sent lib _ h.cache w r hup] at hq
          exact ⟨u, hmiss, hhost, rfl, hup, by simpa using hq⟩

/-- The exchange of the proxy built by the handler, on a manifest path, when the origin
answers with a status from 200 to 999 and a body that reads without failure. -/
theorem proxy_manifest_ok (lib : Stdlib) (u : URL) (c : Cache) (tr : RoundTripper)
    (r : Request) (s : Nat) (hd : Header) (b : Bytes)
    (hpath : strings_Contains r.URL.Path "/manifests/" = true)
    (hup : ascii_IsPrint (upgradeType (Director u r).Header) = true)
    (hresp : tr (outbound lib u r) =
      .ok { StatusCode := s, Header := hd, Body := ⟨b, none⟩ })
    (hlo : 200 ≤ s) (hhi : s ≤ 999) :
    ReverseProxy.ServeHTTP lib
        { Director := Director u, Transport := tr,
          ModifyResponse := ModifyResponse r (cacheKey r) } c NewRecorder r =
      { w := { Code := s, HeaderMap := removeHopByHopHeaders lib hd, Body := b,
               wroteHeader := true },
        cache := c.Set (cacheKey r) b, sent := [outbound lib u r], panic := none } := by
  have h101 : s ≠ 101 := by omega
  have hbad : ¬ (s < 100 ∨ 999 < s) := by omega
  have hresp1 : tr (ReverseProxy.outreq lib
      { Director := Director u, Transport := tr,
        ModifyResponse := ModifyResponse r (cacheKey r) } r) =
      .ok { StatusCode := s, Header := hd, Body := ⟨b, none⟩ } := hresp
  simp [ReverseProxy.ServeHTTP, hup, hresp1, h101, ModifyResponse, hpath, io_ReadAll,
    NewRecorder, ResponseRecorder.Write, ResponseRecorder.WriteHeader,
    ResponseRecorder.commit, copyHeader, hbad]
  rfl

/-- The exchange of the proxy built by the handler, on a path that is not a manifest
path, when the origin answers with a status from 200 to 999: the cache is not touched
and status and body are copied as they are. -/
theorem proxy_other_ok (lib : Stdlib) (u : URL) (c : Cache) (tr : RoundTripper)
    (r : Request) (res : Response)
    (hpath : strings_Contains r.URL.Path "/manifests/" = false)
    (hup : ascii_IsPrint (upgradeType (Director u r).Header) = true)
    (hresp : tr (outbound lib u r) = .ok res)
    (hlo : 200 ≤ res.StatusCode) (hhi : res.StatusCode ≤ 999) :
    (ReverseProxy.ServeHTTP lib
        { Director := Director u, Transport := tr,
          ModifyResponse := ModifyResponse r (cacheKey r) } c NewRecorder r).w =
      { Code := res.StatusCode, HeaderMap := removeHopByHopHeaders lib res.Header,
        Body := res.Body.data, wroteHeader := true } ∧
    (ReverseProxy.ServeHTTP lib
        { Director := Director u, Transport := tr,
          ModifyResponse := ModifyResponse r (cacheKey r) } c NewRecorder r).cache = c := by
  have h101 : res.StatusCode ≠ 101 := by omega
  have hbad : ¬ (res.StatusCode < 100 ∨ 999 < res.StatusCode) := by omega
  have hresp1 : tr (ReverseProxy.outreq lib
      { Director := Director u, Transport := tr,
        ModifyResponse := ModifyResponse r (cacheKey r) } r) = .ok res := hresp
  simp [ReverseProxy.ServeHTTP, hup, hresp1, h101, ModifyResponse, hpath, io_ReadAll,
    NewRecorder, ResponseRecorder.Write, ResponseRecorder.WriteHeader,
    ResponseRecorder.commit, copyHeader, hbad]

/-- The cache after a call of the proxy is the cache before it or the cache that
`ModifyResponse` answered. -/
theorem proxy_cache_from_ModifyResponse (lib : Stdlib) (p : ReverseProxy) (c : Cache)
    (rw : ResponseRecorder) (r : Request) :
    (p.ServeHTTP lib c rw r).cache = c ∨
    ∃ res res1, p.ModifyResponse res c = .ok (res1, (p.ServeHTTP lib c rw r).cache) := by
  unfold ReverseProxy.ServeHTTP
  split
  · dsimp only
    split
    · exact Or.inl rfl
    · split
      · split
        · exact Or.inl rfl
        · rename_i hm
          exact Or.inr ⟨_, _, hm⟩
      · split
        · exact Or.inl rfl
        · rename_i hm
          split
          · exact Or.inr ⟨_, _, hm⟩
          · exact Or.inr ⟨_, _, hm⟩
  · exact Or.inl rfl

/-- The `ModifyResponse` closure leaves the cache as it was or, on a manifest path,
stores one payload under the key. -/
theorem ModifyResponse_cache (r : Request) (key : String) (resp resp1 : Response)
    (c c1 : Cache) (h : ModifyResponse r key resp c = .ok (resp1, c1)) :
    c1 = c ∨ (strings_Contains r.URL.Path "/manifests/" = true ∧ ∃ b, c1 = c.Set key b) := by
  unfold ModifyResponse at h
  by_cases hp : strings_Contains r.URL.Path "/manifests/" = true
  · cases hb : resp.Body.readErr with
    | some err => simp [hp, io_ReadAll, hb] at h
    | none =>
      simp [hp, io_ReadAll, hb] at h
      exact Or.inr ⟨hp, resp.Body.data, h.2.symm⟩
  · simp [hp] at h
    exact Or.inl h.2.symm

/-- The proxy built by the handler leaves the cache as it was or stores one payload
under the fingerprint of the request, and this on a manifest path only. -/
theorem proxy_cache_cases (lib : Stdlib) (u : URL) (c : Cache) (tr : RoundTripper)
    (w : ResponseRecorder) (r : Request) :
    (ReverseProxy.ServeHTTP lib
        { Director := Director u, Transport := tr,
          ModifyResponse := ModifyResponse r (cacheKey r) } c w r).cache = c ∨
    (strings_Contains r.URL.Path "/manifests/" = true ∧
      ∃ b, (ReverseProxy.ServeHTTP lib
        { Director := Director u, Transport := tr,
          ModifyResponse := ModifyResponse r (cacheKey r) } c w r).cache =
      c.Set (cacheKey r) b) := by
  rcases proxy_cache_from_ModifyResponse lib
      { Director := Director u, Transport := tr,
        ModifyResponse := ModifyResponse r (cacheKey r) } c w r with hc | ⟨res, res1, hm⟩
  · exact Or.inl hc
  · exact ModifyResponse_cache r (cacheKey r) res res1 c _ hm

/-- One call of the handler leaves the cache as it was or, for a manifest request with a
Host, stores one payload under the fingerprint of the request. -/
theorem ServeHTTP_cache_cases (lib : Stdlib) (h : Handler)
    (w : ResponseRecorder) (r : Request) :
    (Handler.ServeHTTP lib h w r).cache = h.cache ∨
    (r.Host ≠ "" ∧ strings_Contains r.URL.Path "/manifests/" = true ∧
      ∃ b, (Handler.ServeHTTP lib h w r).cache = h.cache.Set (cacheKey r) b) := by
  rcases hit_or_miss h.cache r with ⟨hp, d, hd⟩ | hmiss
  · left
    rw [ServeHTTP_hit lib h w r d hp hd]
  · by_cases hhost : r.Host = ""
    · left
      rw [ServeHTTP_no_host lib h w r hmiss hhost]
      exact (Outcome.written_sent_cache _ _ _).2
    · cases hparse : lib.url_Parse ("https://" ++ r.Host ++ "/v2") with
      | error e =>
        left
        rw [ServeHTTP_bad_target lib h w r e hmiss hhost hparse]
        exact (Outcome.written_sent_cache _ _ _).2
      | ok u =>
        rw [ServeHTTP_forward lib h w r u hmiss hhost hparse]
        rcases proxy_cache_cases lib u h.cache h.transport w r with hc | ⟨hp, b, hc⟩
        · exact Or.inl hc
        · exact Or.inr ⟨hhost, hp, b, hc⟩

/-- What the `Director` closure leaves in the outbound request. -/
theorem Director_fields (u : URL) (r : Request) :
    (Director u r).URL.Scheme = u.Scheme ∧ (Director u r).URL.Host = u.Host ∧
    (Director u r).Host = u.Host ∧ (Director u r).URL.Path = r.URL.Path ∧
    (Director u r).Header.Get "X-Forwarded-Host" = r.Header.Get "Host" := by
  simp [Director, Header.Get, Header.Set, List.lookup_cons]

/-- No key of a reachable cache begins with a slash: a key is stored for a request with
a Host only, and begins as that Host does. -/
theorem Reachable.keys (lib : Stdlib) (c : Cache) (hc : Reachable lib c) :
    ∀ kv ∈ c.items, kv.1.data.head? ≠ some '/' := by
  induction hc with
  | empty =>
    intro kv hkv
    simp [Cache.New] at hkv
  | step c tr w r _ hr ih =>
    rcases ServeHTTP_cache_cases lib ⟨c, tr⟩ w r with hsame | ⟨hhost, _, b, hset⟩
    · rw [hsame]
      exact ih
    · rw [hset]
      intro kv hkv
      simp only [Cache.Set, List.mem_cons, List.mem_filter] at hkv
      rcases hkv with hkv | ⟨hkv, _⟩
      · rw [hkv]
        show (cacheKey r).data.head? ≠ some '/'
        unfold cacheKey
        rw [String.append_assoc, head_append_of_ne_empty _ _ hhost]
        exact hr.2
      · exact ih kv hkv
  | expire c live _ ih =>
    intro kv hkv
    exact ih kv (List.mem_filter.mp hkv).1

/-- The state after any run of the reload loop: the most recent successful answer, or
the state before the run when no answer was successful. -/
theorem loadCertificates_certificates (attempts : List (Except String Certificate))
    (st : CertState) :
    (loadCertificates attempts st).certificates =
      match lastSuccessful attempts with
      | some cert => some cert
      | none => st.certificates := by
  induction attempts generalizing st with
  | nil => rfl
  | cons a rest ih =>
    have hstep : loadCertificates (a :: rest) st =
        loadCertificates rest (loadCertificates_turn st a) := rfl
    rw [hstep, ih]
    cases hl : lastSuccessful rest with
    | some cert => simp [lastSuccessful, hl]
    | none =>
      cases a with
      | error e => simp [lastSuccessful, hl, loadCertificates_turn]
      | ok cert => simp [lastSuccessful, hl, loadCertificates_turn]

/-! ## Properties of the handler -/

/-- C4: when a request whose path contains the manifest segment is handed to the
transport (so it missed the cache, has a Host and a target that parses) and the origin
answers with a status `s`, any from 200 to 999, 2xx, 4xx and 5xx alike, and a body `b`,
then after the call the cache maps the fingerprint `host ++ path ++ authorization` to
exactly `b`, and the client has received status `s` and body `b`, without a panic. -/
theorem manifest_miss_is_cached_whatever_the_status
    (lib : Stdlib) (c : Cache) (tr : RoundTripper)
    (r q : Request) (s : Nat) (hd : Header) (b : Bytes)
    (hpath : strings_Contains r.URL.Path "/manifests/" = true)
    (hsent : q ∈ (Handler.ServeHTTP lib ⟨c, tr⟩ NewRecorder r).sent)
    (hresp : tr q =
      .ok { StatusCode := s, Header := hd, Body := { data := b, readErr := none } })
    (hlo : 200 ≤ s) (hhi : s ≤ 999) :
    (Handler.ServeHTTP lib ⟨c, tr⟩ NewRecorder r).cache.Get
        (r.Host ++ r.URL.Path ++ r.Header.Get "Authorization") = some b ∧
    (Handler.ServeHTTP lib ⟨c, tr⟩ NewRecorder r).w.Code = s ∧
    (Handler.ServeHTTP lib ⟨c, tr⟩ NewRecorder r).w.Body = b ∧
    (Handler.ServeHTTP lib ⟨c, tr⟩ NewRecorder r).panic = none := by
  obtain ⟨u, hmiss, hhost, hparse, hup, hq⟩ :=
    ServeHTTP_sent_inv lib ⟨c, tr⟩ NewRecorder r q hsent
  subst hq
  rw [ServeHTTP_forward lib ⟨c, tr⟩ NewRecorder r u hmiss hhost hparse,
    proxy_manifest_ok lib u c tr r s hd b hpath hup hresp hlo hhi]
  exact ⟨Cache.Get_Set_self c (cacheKey r) b, rfl, rfl, rfl⟩

/-- C4 at the denied request of the test: the 403 answer is stored and passed on. -/
theorem manifest_miss_is_cached_whatever_the_status_witness :
    (Handler.ServeHTTP plain ⟨Cache.New, roundTripFunc⟩ NewRecorder
        (testRequest "example.com" "/manifests/denied" "Bearer denied")).cache.Get
        ("example.com" ++ "/manifests/denied" ++ "Bearer denied") = some "Access denied" ∧
    (Handler.ServeHTTP plain ⟨Cache.New, roundTripFunc⟩ NewRecorder
        (testRequest "example.com" "/manifests/denied" "Bearer denied")).w.Code = 403 ∧
    (Handler.ServeHTTP plain ⟨Cache.New, roundTripFunc⟩ NewRecorder
        (testRequest "example.com" "/manifests/denied" "Bearer denied")).w.Body
        = "Access denied" ∧
    (Handler.ServeHTTP plain ⟨Cache.New, roundTripFunc⟩ NewRecorder
        (testRequest "example.com" "/manifests/denied" "Bearer denied")).panic = none :=
  manifest_miss_is_cached_whatever_the_status plain Cache.New roundTripFunc
    (testRequest "example.com" "/manifests/denied" "Bearer denied")
    (outbound plain ⟨"https", "example.com", "/v2"⟩
      (testRequest "example.com" "/manifests/denied" "Bearer denied"))
    403 ⟨[]⟩ "Access denied"
    (by decide) (by decide) (by rfl) (by decide) (by decide)

/-- C6: when the request handed to the transport is answered by an error instead of a
response, the client receives 502 with an empty body and the cache after the call is
the cache before the call, on a manifest path as on any other. -/
theorem dispatch_failure_is_502_and_never_cached
    (lib : Stdlib) (c : Cache) (tr : RoundTripper)
    (r q : Request) (e : String)
    (hsent : q ∈ (Handler.ServeHTTP lib ⟨c, tr⟩ NewRecorder r).sent)
    (herr : tr q = .error e) :
    (Handler.ServeHTTP lib ⟨c, tr⟩ NewRecorder r).w.Code = 502 ∧
    (Handler.ServeHTTP lib ⟨c, tr⟩ NewRecorder r).w.Body = "" ∧
    (Handler.ServeHTTP lib ⟨c, tr⟩ NewRecorder r).cache = c := by
  obtain ⟨u, hmiss, hhost, hparse, hup, hq⟩ :=
    ServeHTTP_sent_inv lib ⟨c, tr⟩ NewRecorder r q hsent
  subst hq
  rw [ServeHTTP_forward lib ⟨c, tr⟩ NewRecorder r u hmiss hhost hparse,
    proxy_transport_error lib _ c NewRecorder r e hup herr]
  exact ⟨rfl, rfl, rfl⟩

/-- C6 at a manifest request sent through a transport that always fails, with a cache
that holds an unrelated entry. -/
theorem dispatch_failure_is_502_and_never_cached_witness :
    (Handler.ServeHTTP plain
        ⟨⟨[("k", "v")]⟩, fun _ => .error "connection refused"⟩ NewRecorder
        (testRequest "example.com" "/manifests/test" "Bearer token")).w.Code = 502 ∧
    (Handler.ServeHTTP plain
        ⟨⟨[("k", "v")]⟩, fun _ => .error "connection refused"⟩ NewRecorder
        (testRequest "example.com" "/manifests/test" "Bearer token")).w.Body = "" ∧
    (Handler.ServeHTTP plain
        ⟨⟨[("k", "v")]⟩, fun _ => .error "connection refused"⟩ NewRecorder
        (testRequest "example.com" "/manifests/test" "Bearer token")).cache =
      ⟨[("k", "v")]⟩ :=
  dispatch_failure_is_502_and_never_cached plain ⟨[("k", "v")]⟩
    (fun _ => .error "connection refused")
    (testRequest "example.com" "/manifests/test" "Bearer token")
    (outbound plain ⟨"https", "example.com", "/v2"⟩
      (testRequest "example.com" "/manifests/test" "Bearer token"))
    "connection refused" (by decide) rfl

/-- C10: on a cache hit (manifest path, an entry under the fingerprint of the request)
the handler writes exactly the cached bytes with status 200, sends nothing to the
origin, leaves the cache as it is and does not panic, whatever the method and the Host
of the request; the header map of the answer holds the content type sniffed from the
cached bytes and nothing else, so no header of the origin; and an entry captured from
an origin answer of any status `s` from 200 to 999, 403 for one, is replayed that way,
with status 200. -/
theorem cache_hit_replays_bytes_with_status_200
    (lib : Stdlib) (c : Cache) (tr : RoundTripper)
    (r : Request) (d : Bytes)
    (hpath : strings_Contains r.URL.Path "/manifests/" = true)
    (hget : c.Get (cacheKey r) = some d) :
    Handler.ServeHTTP lib ⟨c, tr⟩ NewRecorder r =
      { w := { Code := 200, HeaderMap := ⟨[("Content-Type", lib.DetectContentType d)]⟩,
               Body := d, wroteHeader := true },
        cache := c, sent := [], panic := none } ∧
    (∀ (c0 : Cache) (tr0 : RoundTripper) (q : Request) (s : Nat) (hd : Header) (b : Bytes),
      q ∈ (Handler.ServeHTTP lib ⟨c0, tr0⟩ NewRecorder r).sent →
      tr0 q = .ok { StatusCode := s, Header := hd, Body := ⟨b, none⟩ } →
      200 ≤ s → s ≤ 999 →
      (Handler.ServeHTTP lib ⟨c0, tr0⟩ NewRecorder r).w.Code = s ∧
      Handler.ServeHTTP lib
          ⟨(Handler.ServeHTTP lib ⟨c0, tr0⟩ NewRecorder r).cache, tr⟩ NewRecorder r =
        { w := { Code := 200, HeaderMap := ⟨[("Content-Type", lib.DetectContentType b)]⟩,
                 Body := b, wroteHeader := true },
          cache := (Handler.ServeHTTP lib ⟨c0, tr0⟩ NewRecorder r).cache,
          sent := [], panic := none }) := by
  refine ⟨?_, ?_⟩
  · rw [ServeHTTP_hit lib ⟨c, tr⟩ NewRecorder r d hpath hget, NewRecorder_Write]
  · intro c0 tr0 q s hd b hsent hresp hlo hhi
    obtain ⟨u, hmiss, hhost, hparse, hup, hq⟩ :=
      ServeHTTP_sent_inv lib ⟨c0, tr0⟩ NewRecorder r q hsent
    subst hq
    have h1 : Handler.ServeHTTP lib ⟨c0, tr0⟩ NewRecorder r =
        { w := { Code := s, HeaderMap := removeHopByHopHeaders lib hd, Body := b,
                 wroteHeader := true },
          cache := c0.Set (cacheKey r) b, sent := [outbound lib u r], panic := none } := by
      rw [ServeHTTP_forward lib ⟨c0, tr0⟩ NewRecorder r u hmiss hhost hparse,
        proxy_manifest_ok lib u c0 tr0 r s hd b hpath hup hresp hlo hhi]
    rw [h1]
    refine ⟨rfl, ?_⟩
    rw [ServeHTTP_hit lib ⟨c0.Set (cacheKey r) b, tr⟩ NewRecorder r b hpath
      (Cache.Get_Set_self c0 (cacheKey r) b), NewRecorder_Write]

/-- C10 at a DELETE request without Host whose fingerprint is in the cache, and at the
denied request of the test, answered 403 by the origin and 200 from the cache. -/
theorem cache_hit_replays_bytes_with_status_200_witness :
    Handler.ServeHTTP plain
        ⟨⟨[("/manifests/xBearer t", "cached bytes")]⟩, roundTripFunc⟩ NewRecorder
        { Method := "DELETE", URL := ⟨"", "", "/manifests/x"⟩, Host := "",
          Header := ⟨[("Authorization", "Bearer t")]⟩,
          RemoteAddr := "192.0.2.1:1234", underServer := false } =
      { w := { Code := 200, HeaderMap := ⟨[("Content-Type", "text/plain; charset=utf-8")]⟩,
               Body := "cached bytes", wroteHeader := true },
        cache := ⟨[("/manifests/xBearer t", "cached bytes")]⟩, sent := [],
        panic := none } ∧
    (Handler.ServeHTTP plain ⟨Cache.New, roundTripFunc⟩ NewRecorder
        (testRequest "example.com" "/manifests/denied" "Bearer denied")).w.Code = 403 ∧
    Handler.ServeHTTP plain
        ⟨(Handler.ServeHTTP plain ⟨Cache.New, roundTripFunc⟩ NewRecorder
          (testRequest "example.com" "/manifests/denied" "Bearer denied")).cache,
          roundTripFunc⟩
        NewRecorder (testRequest "example.com" "/manifests/denied" "Bearer denied") =
      { w := { Code := 200, HeaderMap := ⟨[("Content-Type", "text/plain; charset=utf-8")]⟩,
               Body := "Access denied", wroteHeader := true },
        cache := (Handler.ServeHTTP plain ⟨Cache.New, roundTripFunc⟩ NewRecorder
          (testRequest "example.com" "/manifests/denied" "Bearer denied")).cache,
        sent := [], panic := none } :=
  ⟨(cache_hit_replays_bytes_with_status_200 plain
      ⟨[("/manifests/xBearer t", "cached bytes")]⟩ roundTripFunc
      { Method := "DELETE", URL := ⟨"", "", "/manifests/x"⟩, Host := "",
        Header := ⟨[("Authorization", "Bearer t")]⟩,
        RemoteAddr := "192.0.2.1:1234", underServer := false }
      "cached bytes" (by decide) (by decide)).1,
    (cache_hit_replays_bytes_with_status_200 plain
      ⟨[("example.com/manifests/deniedBearer denied", "Access denied")]⟩ roundTripFunc
      (testRequest "example.com" "/manifests/denied" "Bearer denied")
      "Access denied" (by decide) (by decide)).2 Cache.New roundTripFunc
      (outbound plain ⟨"https", "example.com", "/v2"⟩
        (testRequest "example.com" "/manifests/denied" "Bearer denied"))
      403 ⟨[]⟩ "Access denied"
      (by decide) (by rfl) (by decide) (by decide)⟩

/-- C1: the denied request of the test, handled twice on one handler. The first
handling is forwarded (one forwarding call) and answered 403 with body `Access denied`;
the second makes no forwarding call and is answered with that body, but with status 200:
the answer replayed from the cache is not the answer given the first time. -/
theorem repeated_denied_request_changes_status :
    (Handler.ServeHTTP plain ⟨Cache.New, roundTripFunc⟩ NewRecorder
        (testRequest "example.com" "/manifests/denied" "Bearer denied")).sent.length = 1 ∧
    (Handler.ServeHTTP plain ⟨Cache.New, roundTripFunc⟩ NewRecorder
        (testRequest "example.com" "/manifests/denied" "Bearer denied")).w.Code = 403 ∧
    (Handler.ServeHTTP plain ⟨Cache.New, roundTripFunc⟩ NewRecorder
        (testRequest "example.com" "/manifests/denied" "Bearer denied")).w.Body
      = "Access denied" ∧
    (Handler.ServeHTTP plain
        ⟨(Handler.ServeHTTP plain ⟨Cache.New, roundTripFunc⟩ NewRecorder
          (testRequest "example.com" "/manifests/denied" "Bearer denied")).cache,
          roundTripFunc⟩
        NewRecorder (testRequest "example.com" "/manifests/denied" "Bearer denied")).sent
      = [] ∧
    (Handler.ServeHTTP plain
        ⟨(Handler.ServeHTTP plain ⟨Cache.New, roundTripFunc⟩ NewRecorder
          (testRequest "example.com" "/manifests/denied" "Bearer denied")).cache,
          roundTripFunc⟩
        NewRecorder (testRequest "example.com" "/manifests/denied" "Bearer denied")).w.Body
      = "Access denied" ∧
    (Handler.ServeHTTP plain
        ⟨(Handler.ServeHTTP plain ⟨Cache.New, roundTripFunc⟩ NewRecorder
          (testRequest "example.com" "/manifests/denied" "Bearer denied")).cache,
          roundTripFunc⟩
        NewRecorder (testRequest "example.com" "/manifests/denied" "Bearer denied")).w.Code
      = 200 := by
  decide

/-- C2, as amended: two requests that differ in exactly one of Host, path and
authorization have different cache keys, whatever the values. So when one of them has
been handled (and, on a manifest path, cached) on a cache with no entry of its own for
the other, the other is not served from the cache; it is forwarded to the origin with
exactly one forwarding call when its Host is not empty, its target parses and it does
not ask for an upgrade to a protocol whose name is not printable; and it is answered
400 with no forwarding call when its Host is empty. -/
theorem single_component_change_separates_entries
    (lib : Stdlib) (c0 : Cache) (tr1 tr2 : RoundTripper) (r1 r2 : Request)
    (hdiff :
      (r1.Host ≠ r2.Host ∧ r1.URL.Path = r2.URL.Path ∧
        r1.Header.Get "Authorization" = r2.Header.Get "Authorization") ∨
      (r1.Host = r2.Host ∧ r1.URL.Path ≠ r2.URL.Path ∧
        r1.Header.Get "Authorization" = r2.Header.Get "Authorization") ∨
      (r1.Host = r2.Host ∧ r1.URL.Path = r2.URL.Path ∧
        r1.Header.Get "Authorization" ≠ r2.Header.Get "Authorization")) :
    cacheKey r1 ≠ cacheKey r2 ∧
    (c0.Get (cacheKey r2) = none →
      (Handler.ServeHTTP lib ⟨c0, tr1⟩ NewRecorder r1).cache.Get (cacheKey r2) = none ∧
      (∀ u2, r2.Host ≠ "" → lib.url_Parse ("https://" ++ r2.Host ++ "/v2") = .ok u2 →
        ascii_IsPrint (upgradeType r2.Header) = true →
        (Handler.ServeHTTP lib
          ⟨(Handler.ServeHTTP lib ⟨c0, tr1⟩ NewRecorder r1).cache, tr2⟩
          NewRecorder r2).sent.length = 1) ∧
      (r2.Host = "" →
        (Handler.ServeHTTP lib
          ⟨(Handler.ServeHTTP lib ⟨c0, tr1⟩ NewRecorder r1).cache, tr2⟩
          NewRecorder r2).sent = [] ∧
        (Handler.ServeHTTP lib
          ⟨(Handler.ServeHTTP lib ⟨c0, tr1⟩ NewRecorder r1).cache, tr2⟩
          NewRecorder r2).w.Code = 400)) := by
  have hne : cacheKey r1 ≠ cacheKey r2 := by
    intro hk
    unfold cacheKey at hk
    rcases hdiff with ⟨hH, hP, hA⟩ | ⟨hH, hP, hA⟩ | ⟨hH, hP, hA⟩
    · rw [hP, hA, String.append_assoc, String.append_assoc] at hk
      exact hH (append_right_cancel_str hk)
    · rw [hH, hA, String.append_assoc, String.append_assoc] at hk
      exact hP (append_right_cancel_str (append_left_cancel_str hk))
    · rw [hH, hP] at hk
      exact hA (append_left_cancel_str hk)
  refine ⟨hne, fun hfresh => ?_⟩
  have hnone : (Handler.ServeHTTP lib ⟨c0, tr1⟩ NewRecorder r1).cache.Get
      (cacheKey r2) = none := by
    rcases ServeHTTP_cache_cases lib ⟨c0, tr1⟩ NewRecorder r1 with hc | ⟨_, _, b, hc⟩
    · rw [hc]
      exact hfresh
    · rw [hc, Cache.Get_Set_ne c0 (cacheKey r1) (cacheKey r2) b (Ne.symm hne)]
      exact hfresh
  refine ⟨hnone, ?_, ?_⟩
  · intro u2 hhost hparse hup
    rw [ServeHTTP_forward lib _ NewRecorder r2 u2 (Or.inr hnone) hhost hparse,
      proxy_sent lib _ _ _ _ (by rw [upgradeType_Director]; exact hup)]
    rfl
  · intro hhost
    rw [ServeHTTP_no_host lib _ NewRecorder r2 (Or.inr hnone) hhost,
      NewRecorder_http_Error_400]
    exact ⟨rfl, rfl⟩

/-- C2, as amended, at the test: after the manifest of `example.com` is cached, the same
path and authorization on `another.example.com` is forwarded. -/
theorem single_component_change_separates_entries_witness :
    cacheKey (testRequest "example.com" "/manifests/test" "Bearer token") ≠
      cacheKey (testRequest "another.example.com" "/manifests/test" "Bearer token") ∧
    (Handler.ServeHTTP plain ⟨Cache.New, roundTripFunc⟩ NewRecorder
        (testRequest "example.com" "/manifests/test" "Bearer token")).cache.Get
        (cacheKey (testRequest "another.example.com" "/manifests/test" "Bearer token"))
      = none ∧
    (Handler.ServeHTTP plain
        ⟨(Handler.ServeHTTP plain ⟨Cache.New, roundTripFunc⟩ NewRecorder
          (testRequest "example.com" "/manifests/test" "Bearer token")).cache,
          roundTripFunc⟩
        NewRecorder
        (testRequest "another.example.com" "/manifests/test" "Bearer token")).sent.length
      = 1 :=
  have key := single_component_change_separates_entries plain Cache.New
    roundTripFunc roundTripFunc
    (testRequest "example.com" "/manifests/test" "Bearer token")
    (testRequest "another.example.com" "/manifests/test" "Bearer token")
    (Or.inl ⟨by decide, rfl, rfl⟩)
  ⟨key.1, (key.2 (by decide)).1,
    (key.2 (by decide)).2.1 ⟨"https", "another.example.com", "/v2"⟩
      (by decide) (by rfl) (by decide)⟩

/-- C2 as stated fails when the component that changes is the Host and the new Host is
empty: after the manifest request of the test is cached, the request with the same path
and authorization and no Host has another cache key and is not served from the cache,
but it is answered 400 without any forwarding call. -/
theorem host_changed_to_empty_is_not_forwarded :
    strings_Contains (testRequest "" "/manifests/test" "Bearer token").URL.Path
      "/manifests/" = true ∧
    (testRequest "example.com" "/manifests/test" "Bearer token").Host ≠
      (testRequest "" "/manifests/test" "Bearer token").Host ∧
    (testRequest "example.com" "/manifests/test" "Bearer token").URL.Path =
      (testRequest "" "/manifests/test" "Bearer token").URL.Path ∧
    (testRequest "example.com" "/manifests/test" "Bearer token").Header.Get "Authorization" =
      (testRequest "" "/manifests/test" "Bearer token").Header.Get "Authorization" ∧
    (Handler.ServeHTTP plain ⟨Cache.New, roundTripFunc⟩ NewRecorder
        (testRequest "example.com" "/manifests/test" "Bearer token")).cache =
      ⟨[("example.com/manifests/testBearer token", "test manifest data")]⟩ ∧
    (Handler.ServeHTTP plain
        ⟨(Handler.ServeHTTP plain ⟨Cache.New, roundTripFunc⟩ NewRecorder
          (testRequest "example.com" "/manifests/test" "Bearer token")).cache,
          roundTripFunc⟩
        NewRecorder (testRequest "" "/manifests/test" "Bearer token")).sent = [] ∧
    (Handler.ServeHTTP plain
        ⟨(Handler.ServeHTTP plain ⟨Cache.New, roundTripFunc⟩ NewRecorder
          (testRequest "example.com" "/manifests/test" "Bearer token")).cache,
          roundTripFunc⟩
        NewRecorder (testRequest "" "/manifests/test" "Bearer token")).w.Code = 400 := by
  decide

/-- C3: a deliverable request with an empty Host, whatever its path and authorization,
handled on any cache reached from the empty cache by handling deliverable requests (and
by the expiry of entries), is answered 400 with the message of the handler and makes no
forwarding call; the cache is left as it is. -/
theorem empty_host_is_400_without_forwarding
    (lib : Stdlib) (c : Cache) (tr : RoundTripper) (r : Request)
    (hreach : Reachable lib c) (hhost : r.Host = "") (hform : deliverable r) :
    (Handler.ServeHTTP lib ⟨c, tr⟩ NewRecorder r).w.Code = 400 ∧
    (Handler.ServeHTTP lib ⟨c, tr⟩ NewRecorder r).sent = [] ∧
    (Handler.ServeHTTP lib ⟨c, tr⟩ NewRecorder r).w.Body = "Missing host header\n" ∧
    (Handler.ServeHTTP lib ⟨c, tr⟩ NewRecorder r).cache = c := by
  have hmiss : strings_Contains r.URL.Path "/manifests/" = false ∨
      c.Get (cacheKey r) = none := by
    by_cases hp : strings_Contains r.URL.Path "/manifests/" = true
    · right
      have hslash : r.URL.Path.data.head? = some '/' := hform.1 hp
      have hpne : r.URL.Path ≠ "" := by
        intro he
        rw [he] at hslash
        simp at hslash
      have hkey : (cacheKey r).data.head? = some '/' := by
        have hk : cacheKey r = r.URL.Path ++ r.Header.Get "Authorization" := by
          simp [cacheKey, hhost]
        rw [hk, head_append_of_ne_empty _ _ hpne]
        exact hslash
      apply lookup_none_of_forall_ne
      intro kv hkv hk
      exact Reachable.keys lib c hreach kv hkv (by rw [hk]; exact hkey)
    · left
      simpa using hp
  rw [ServeHTTP_no_host lib ⟨c, tr⟩ NewRecorder r hmiss hhost, NewRecorder_http_Error_400]
  exact ⟨rfl, rfl, rfl, rfl⟩

/-- C3 at a manifest request without Host, on the cache left by the first request of the
test. -/
theorem empty_host_is_400_without_forwarding_witness :
    (Handler.ServeHTTP plain
        ⟨(Handler.ServeHTTP plain ⟨Cache.New, roundTripFunc⟩ NewRecorder
          (testRequest "example.com" "/manifests/test" "Bearer token")).cache,
          roundTripFunc⟩ NewRecorder
        (testRequest "" "/manifests/test" "Bearer token")).w.Code = 400 ∧
    (Handler.ServeHTTP plain
        ⟨(Handler.ServeHTTP plain ⟨Cache.New, roundTripFunc⟩ NewRecorder
          (testRequest "example.com" "/manifests/test" "Bearer token")).cache,
          roundTripFunc⟩ NewRecorder
        (testRequest "" "/manifests/test" "Bearer token")).sent = [] ∧
    (Handler.ServeHTTP plain
        ⟨(Handler.ServeHTTP plain ⟨Cache.New, roundTripFunc⟩ NewRecorder
          (testRequest "example.com" "/manifests/test" "Bearer token")).cache,
          roundTripFunc⟩ NewRecorder
        (testRequest "" "/manifests/test" "Bearer token")).w.Body
      = "Missing host header\n" ∧
    (Handler.ServeHTTP plain
        ⟨(Handler.ServeHTTP plain ⟨Cache.New, roundTripFunc⟩ NewRecorder
          (testRequest "example.com" "/manifests/test" "Bearer token")).cache,
          roundTripFunc⟩ NewRecorder
        (testRequest "" "/manifests/test" "Bearer token")).cache =
      (Handler.ServeHTTP plain ⟨Cache.New, roundTripFunc⟩ NewRecorder
          (testRequest "example.com" "/manifests/test" "Bearer token")).cache :=
  empty_host_is_400_without_forwarding plain
    (Handler.ServeHTTP plain ⟨Cache.New, roundTripFunc⟩ NewRecorder
      (testRequest "example.com" "/manifests/test" "Bearer token")).cache
    roundTripFunc (testRequest "" "/manifests/test" "Bearer token")
    (Reachable.step Cache.New roundTripFunc NewRecorder
      (testRequest "example.com" "/manifests/test" "Bearer token")
      Reachable.empty (by decide))
    rfl (by decide)

/-- C5, as amended: a request whose path does not contain the manifest segment, with a
Host and a target that parses, never changes the cache and is never answered from it,
whatever the cache holds, also an entry under its own fingerprint. It is handed to the
transport exactly once, unless it asks for an upgrade to a protocol whose name is not
printable, and then it is answered 502 with no forwarding call. An origin answer with a
status from 200 to 999 reaches the client with that status and its body unchanged, and
a transport error is answered 502. -/
theorem other_path_bypasses_cache
    (lib : Stdlib) (c : Cache) (tr : RoundTripper) (r : Request) (u : URL)
    (hpath : strings_Contains r.URL.Path "/manifests/" = false)
    (hhost : r.Host ≠ "")
    (hparse : lib.url_Parse ("https://" ++ r.Host ++ "/v2") = .ok u) :
    (Handler.ServeHTTP lib ⟨c, tr⟩ NewRecorder r).cache = c ∧
    (ascii_IsPrint (upgradeType r.Header) = true →
      (Handler.ServeHTTP lib ⟨c, tr⟩ NewRecorder r).sent.length = 1) ∧
    (ascii_IsPrint (upgradeType r.Header) = false →
      (Handler.ServeHTTP lib ⟨c, tr⟩ NewRecorder r).sent = [] ∧
      (Handler.ServeHTTP lib ⟨c, tr⟩ NewRecorder r).w.Code = 502) ∧
    (∀ q res, q ∈ (Handler.ServeHTTP lib ⟨c, tr⟩ NewRecorder r).sent → tr q = .ok res →
      200 ≤ res.StatusCode → res.StatusCode ≤ 999 →
      (Handler.ServeHTTP lib ⟨c, tr⟩ NewRecorder r).w.Code = res.StatusCode ∧
      (Handler.ServeHTTP lib ⟨c, tr⟩ NewRecorder r).w.Body = res.Body.data) ∧
    (∀ q e, q ∈ (Handler.ServeHTTP lib ⟨c, tr⟩ NewRecorder r).sent → tr q = .error e →
      (Handler.ServeHTTP lib ⟨c, tr⟩ NewRecorder r).w.Code = 502) := by
  have hfwd := ServeHTTP_forward lib ⟨c, tr⟩ NewRecorder r u (Or.inl hpath) hhost hparse
  have hUp := upgradeType_Director u r
  refine ⟨?_, ?_, ?_, ?_, ?_⟩
  · rw [hfwd]
    rcases proxy_cache_cases lib u c tr NewRecorder r with hc | ⟨hp, _⟩
    · exact hc
    · rw [hpath] at hp
      exact absurd hp (by decide)
  · intro hup
    rw [hfwd, proxy_sent lib _ _ _ _ (by rw [hUp]; exact hup)]
    rfl
  · intro hup
    rw [hfwd, proxy_refused lib _ _ _ _ (by rw [hUp]; exact hup)]
    exact ⟨rfl, rfl⟩
  · intro q res hq hres hlo hhi
    obtain ⟨u1, _, _, hparse1, hup, hq1⟩ :=
      ServeHTTP_sent_inv lib ⟨c, tr⟩ NewRecorder r q hq
    have hu : u1 = u := by
      rw [hparse] at hparse1
      exact (Except.ok.inj hparse1).symm
    subst hu
    subst hq1
    rw [hfwd, (proxy_other_ok lib u1 c tr r res hpath hup hres hlo hhi).1]
    exact ⟨rfl, rfl⟩
  · intro q e hq herr
    obtain ⟨u1, _, _, hparse1, hup, hq1⟩ :=
      ServeHTTP_sent_inv lib ⟨c, tr⟩ NewRecorder r q hq
    have hu : u1 = u := by
      rw [hparse] at hparse1
      exact (Except.ok.inj hparse1).symm
    subst hu
    subst hq1
    rw [hfwd, proxy_transport_error lib _ c NewRecorder r e hup herr]
    rfl

/-- C5, as amended, at the `/other` request of the test, with a cache that holds an
entry under the fingerprint of that very request: the entry is neither served nor
replaced, and the 404 of the origin reaches the client. -/
theorem other_path_bypasses_cache_witness :
    (Handler.ServeHTTP plain
        ⟨⟨[("example.com/otherBearer token", "stale")]⟩, roundTripFunc⟩ NewRecorder
        (testRequest "example.com" "/other" "Bearer token")).cache =
      ⟨[("example.com/otherBearer token", "stale")]⟩ ∧
    (Handler.ServeHTTP plain
        ⟨⟨[("example.com/otherBearer token", "stale")]⟩, roundTripFunc⟩ NewRecorder
        (testRequest "example.com" "/other" "Bearer token")).sent.length = 1 ∧
    (Handler.ServeHTTP plain
        ⟨⟨[("example.com/otherBearer token", "stale")]⟩, roundTripFunc⟩ NewRecorder
        (testRequest "example.com" "/other" "Bearer token")).w.Code = 404 ∧
    (Handler.ServeHTTP plain
        ⟨⟨[("example.com/otherBearer token", "stale")]⟩, roundTripFunc⟩ NewRecorder
        (testRequest "example.com" "/other" "Bearer token")).w.Body = "Not Found" :=
  have key := other_path_bypasses_cache plain
    ⟨[("example.com/otherBearer token", "stale")]⟩ roundTripFunc
    (testRequest "example.com" "/other" "Bearer token")
    ⟨"https", "example.com", "/v2"⟩ (by decide) (by decide) (by rfl)
  have pass := key.2.2.2.1
    (outbound plain ⟨"https", "example.com", "/v2"⟩
      (testRequest "example.com" "/other" "Bearer token"))
    ⟨404, ⟨[]⟩, ⟨"Not Found", none⟩⟩ (by decide) (by rfl) (by decide) (by decide)
  ⟨key.1, key.2.1 (by decide), pass.1, pass.2⟩

/-- C5 as stated fails at a request that asks for an upgrade to a protocol whose name is
not printable: its path `/other` does not contain the manifest segment, its Host is
`example.com` and its target parses, but the proxy answers it 502 and no forwarding
call is made. -/
theorem unprintable_upgrade_is_not_forwarded :
    strings_Contains "/other" "/manifests/" = false ∧
    plain.url_Parse ("https://" ++ "example.com" ++ "/v2") =
      .ok ⟨"https", "example.com", "/v2"⟩ ∧
    (Handler.ServeHTTP plain ⟨Cache.New, roundTripFunc⟩ NewRecorder
        { Method := "GET", URL := ⟨"https", "example.com", "/other"⟩,
          Host := "example.com",
          Header := ⟨[("Connection", "Upgrade"), ("Upgrade", "é")]⟩,
          RemoteAddr := "192.0.2.1:1234", underServer := false }).sent = [] ∧
    (Handler.ServeHTTP plain ⟨Cache.New, roundTripFunc⟩ NewRecorder
        { Method := "GET", URL := ⟨"https", "example.com", "/other"⟩,
          Host := "example.com",
          Header := ⟨[("Connection", "Upgrade"), ("Upgrade", "é")]⟩,
          RemoteAddr := "192.0.2.1:1234", underServer := false }).w.Code = 502 :=
  ⟨by decide, rfl, by decide, by decide⟩

/-- C8: the `Director` closure gives the outbound request the scheme and the host of the
parsed target, in the URL and in `Host`, and sets `X-Forwarded-Host` to the entry `Host`
of the header map of the request, not to its `Host` field. At the first request of the
test, whose Host is `example.com` and whose header map holds `Authorization` only, the
request handed to the transport has scheme `https`, host `example.com`, and an
`X-Forwarded-Host` header that is empty. -/
theorem forwarded_host_header_is_empty :
    (∀ (u : URL) (r : Request),
      (Director u r).URL.Scheme = u.Scheme ∧ (Director u r).URL.Host = u.Host ∧
      (Director u r).Host = u.Host ∧
      (Director u r).Header.Get "X-Forwarded-Host" = r.Header.Get "Host") ∧
    (testRequest "example.com" "/manifests/test" "Bearer token").Host = "example.com" ∧
    (Handler.ServeHTTP plain ⟨Cache.New, roundTripFunc⟩ NewRecorder
        (testRequest "example.com" "/manifests/test" "Bearer token")).sent.map
        (fun q => (q.URL.Scheme, q.URL.Host, q.Host, q.Header.Get "X-Forwarded-Host")) =
      [("https", "example.com", "example.com", "")] := by
  refine ⟨fun u r => ?_, by decide, by decide⟩
  have h := Director_fields u r
  exact ⟨h.1, h.2.1, h.2.2.1, h.2.2.2.2⟩

/-- C9: the fingerprint is the concatenation `host ++ path ++ authorization` and depends
on nothing else in the request, and it is not injective on triples: the manifest
requests `(example.com, /manifests/test, 1token)` and
`(example.com, /manifests/test1, token)` differ in path and authorization and have the
same fingerprint, so that once the first is cached the second is answered with the
bytes of the first and no forwarding call. -/
theorem fingerprint_is_concatenation_and_collides :
    (∀ r : Request, cacheKey r = r.Host ++ r.URL.Path ++ r.Header.Get "Authorization") ∧
    (∀ r1 r2 : Request, r1.Host = r2.Host → r1.URL.Path = r2.URL.Path →
      r1.Header.Get "Authorization" = r2.Header.Get "Authorization" →
      cacheKey r1 = cacheKey r2) ∧
    (∃ r1 r2 : Request,
      (r1.Host, r1.URL.Path, r1.Header.Get "Authorization") ≠
        (r2.Host, r2.URL.Path, r2.Header.Get "Authorization") ∧
      strings_Contains r1.URL.Path "/manifests/" = true ∧
      strings_Contains r2.URL.Path "/manifests/" = true ∧
      r1.Header.Get "Authorization" ≠ r2.Header.Get "Authorization" ∧
      cacheKey r1 = cacheKey r2 ∧
      (Handler.ServeHTTP plain ⟨Cache.New, roundTripFunc⟩ NewRecorder r1).sent.length
        = 1 ∧
      (Handler.ServeHTTP plain ⟨Cache.New, roundTripFunc⟩ NewRecorder r1).w.Body
        = "test manifest data" ∧
      (Handler.ServeHTTP plain
          ⟨(Handler.ServeHTTP plain ⟨Cache.New, roundTripFunc⟩ NewRecorder r1).cache,
            roundTripFunc⟩ NewRecorder r2).sent = [] ∧
      (Handler.ServeHTTP plain
          ⟨(Handler.ServeHTTP plain ⟨Cache.New, roundTripFunc⟩ NewRecorder r1).cache,
            roundTripFunc⟩ NewRecorder r2).w.Body = "test manifest data") := by
  refine ⟨fun _ => rfl, ?_, ?_⟩
  · intro r1 r2 hH hP hA
    simp [cacheKey, hH, hP, hA]
  · exact ⟨testRequest "example.com" "/manifests/test" "1token",
      testRequest "example.com" "/manifests/test1" "token", by decide⟩

/-! ## Properties of the certificate provider -/

/-- C7: after any finite sequence of reload attempts, started with no material,
`getCertificate` answers the key pair of the most recent successful attempt, or nothing
when no attempt succeeded, and no error; a failed attempt leaves the state as it was; a
successful one makes its key pair the active one; and once some material is loaded, no
sequence of attempts brings the state back to having none. -/
theorem certificate_is_most_recent_successful_load :
    (∀ attempts : List (Except String Certificate),
      getCertificate (loadCertificates attempts CertState.init) =
        (lastSuccessful attempts, none)) ∧
    (∀ (st : CertState) (e : String), loadCertificates_turn st (.error e) = st) ∧
    (∀ (st : CertState) (cert : Certificate),
      getCertificate (loadCertificates_turn st (.ok cert)) = (some cert, none)) ∧
    (∀ (st : CertState) (attempts : List (Except String Certificate)),
      st.certificates ≠ none → (loadCertificates attempts st).certificates ≠ none) := by
  refine ⟨?_, fun _ _ => rfl, fun _ _ => rfl, ?_⟩
  · intro attempts
    have h := loadCertificates_certificates attempts CertState.init
    unfold getCertificate
    rw [h]
    cases lastSuccessful attempts <;> rfl
  · intro st attempts hst
    rw [loadCertificates_certificates attempts st]
    cases lastSuccessful attempts with
    | some cert => simp
    | none => simpa using hst

/-- C7 at a run of four attempts, success, failure, success, failure: the material
served afterwards is the key pair of the third attempt. -/
theorem certificate_is_most_recent_successful_load_witness :
    getCertificate (loadCertificates
        [.ok ⟨"cert A", "key A"⟩, .error "no such file", .ok ⟨"cert B", "key B"⟩,
          .error "no such file"] CertState.init) =
      (some ⟨"cert B", "key B"⟩, none) :=
  (certificate_is_most_recent_successful_load.1
    [.ok ⟨"cert A", "key A"⟩, .error "no such file", .ok ⟨"cert B", "key B"⟩,
      .error "no such file"]).trans (by decide)

end DockerProxy
